import Mathlib

set_option maxRecDepth 1000000

/-!
Verification development for the driver script `2DMotionPointRobot.py`.

The script configures a kinodynamic motion-planning problem for a point
robot in SE(2): an SE(2) state space with bounds, a 2-dimensional control
space, a state-validity checker (`isStateValid`), a forward propagator
(`propagate`), a grid enumeration of candidate start/goal pairs
(`_rec_all_states`, `get_fixed_start_goal_pairs`, `is_free`), and a driver
(`plan`) that hands one start/goal pair to the external planning library.

Modelling conventions:
* SE(2) states carry real coordinates; the driver's numeric literals and
  the grid coordinates are exact rationals, embedded into the reals where
  a state is constructed from them.
* The trigonometric functions of the `math` module are abstracted as
  function parameters `co` and `si` of the propagator; nothing proved here
  depends on any property of cosine or sine.
* `np.linspace` is modelled exactly over the rationals; every comparison
  the script performs on grid values is decidable there, and no comparison
  performed on the concrete bounds of the script is close enough to a
  rounding boundary for the binary floating-point evaluation to differ.
* The two recursions of the script that can diverge on inputs the script
  never uses (`_rec_all_states` for `state_index ≥ dim`, and the `while`
  loop of `get_fixed_start_goal_pairs` when the pair count never reaches
  1000) are given an explicit fuel parameter; `none` models divergence.
-/

/-- SE(2) state as used by the script: planar position and heading,
read through `getX`/`getY`/`getYaw` and written through
`setX`/`setY`/`setYaw`. -/
structure SE2State where
  x : ℝ
  y : ℝ
  yaw : ℝ

/-- Functional form of the field write `state.setX(v)`. -/
def SE2State.setX (s : SE2State) (v : ℝ) : SE2State := { s with x := v }

/-- Functional form of the field write `state.setY(v)`. -/
def SE2State.setY (s : SE2State) (v : ℝ) : SE2State := { s with y := v }

/-- Functional form of the field write `state.setYaw(v)`. -/
def SE2State.setYaw (s : SE2State) (v : ℝ) : SE2State := { s with yaw := v }

/-- Control vector of the 2-dimensional `RealVectorControlSpace`; `u0`
models `control[0]` (forward speed) and `u1` models `control[1]`
(angular rate). -/
structure RealVectorControl where
  u0 : ℝ
  u1 : ℝ

/-- Translation of the propagator

```
def propagate(start, control, duration, state):
    state.setX(start.getX() + control[0] * duration * cos(start.getYaw()))
    state.setY(start.getY() + control[0] * duration * sin(start.getYaw()))
    state.setYaw(start.getYaw() + control[1] * duration)
```

The three writes to the output state are performed in sequence; `co` and
`si` stand for `math.cos` and `math.sin`. -/
def propagate (co si : ℝ → ℝ) (start : SE2State) (control : RealVectorControl)
    (duration : ℝ) (state : SE2State) : SE2State :=
  let state := state.setX (start.x + control.u0 * duration * co start.yaw)
  let state := state.setY (start.y + control.u0 * duration * si start.yaw)
  let state := state.setYaw (start.yaw + control.u1 * duration)
  state

/-- The four variables visible to one call of `propagate`: the three input
arguments and the output state the call writes into. -/
structure PropagateFrame where
  start : SE2State
  control : RealVectorControl
  duration : ℝ
  state : SE2State

/-- The same three statements of `propagate`, recorded as a transformer of
the whole four-variable frame, so that what the call leaves untouched is
visible in the model. -/
def propagateProc (co si : ℝ → ℝ) (e : PropagateFrame) : PropagateFrame :=
  let e := { e with state := e.state.setX (e.start.x + e.control.u0 * e.duration * co e.start.yaw) }
  let e := { e with state := e.state.setY (e.start.y + e.control.u0 * e.duration * si e.start.yaw) }
  let e := { e with state := e.state.setYaw (e.start.yaw + e.control.u1 * e.duration) }
  e

/-- The space-information handle is used by the script only through its
`satisfiesBounds` predicate. -/
structure SpaceInformation where
  satisfiesBounds : SE2State → Bool

/-- Translation of

```
def isStateValid(spaceInformation, state):
    return spaceInformation.satisfiesBounds(state)
``` -/
def isStateValid (spaceInformation : SpaceInformation) (state : SE2State) : Bool :=
  spaceInformation.satisfiesBounds state

/-- C1: for every start state, control and duration (and initial content of
the output state), `propagate` performs exactly one explicit Euler step:
`x' = x + v·d·cos(yaw)`, `y' = y + v·d·sin(yaw)`, `yaw' = yaw + ω·d`, the
x- and y-updates both reading the yaw of the start state. -/
theorem propagate_euler_step (co si : ℝ → ℝ) (start : SE2State)
    (control : RealVectorControl) (duration : ℝ) (state : SE2State) :
    propagate co si start control duration state =
      { x := start.x + control.u0 * duration * co start.yaw
        y := start.y + control.u0 * duration * si start.yaw
        yaw := start.yaw + control.u1 * duration } := rfl

/-- C3: `isStateValid` returns exactly the value of `satisfiesBounds` on
the given state — it is true iff the state satisfies the configured
state-space bounds, and it performs no other check. -/
theorem isStateValid_iff_satisfiesBounds (si : SpaceInformation) (s : SE2State) :
    isStateValid si s = si.satisfiesBounds s ∧
      (isStateValid si s = true ↔ si.satisfiesBounds s = true) :=
  ⟨rfl, Iff.rfl⟩

/-- C5: propagation is deterministic — two calls of `propagate` with
identical start state, control, duration (and output-state) arguments
produce identical successor states; the embedding exhibits `propagate` as a
pure function of exactly these arguments, with no global state. -/
theorem propagate_deterministic (co si : ℝ → ℝ) (s₁ s₂ : SE2State)
    (c₁ c₂ : RealVectorControl) (d₁ d₂ : ℝ) (o₁ o₂ : SE2State)
    (hs : s₁ = s₂) (hc : c₁ = c₂) (hd : d₁ = d₂) (ho : o₁ = o₂) :
    propagate co si s₁ c₁ d₁ o₁ = propagate co si s₂ c₂ d₂ o₂ := by
  subst hs hc hd ho; rfl

/-- Witness for C5 at concrete arguments. -/
theorem propagate_deterministic_witness :
    propagate (fun r => r) (fun r => r) ⟨0, 0, 0⟩ ⟨1, 1⟩ 1 ⟨0, 0, 0⟩ =
      propagate (fun r => r) (fun r => r) ⟨0, 0, 0⟩ ⟨1, 1⟩ 1 ⟨0, 0, 0⟩ :=
  propagate_deterministic (fun r => r) (fun r => r) ⟨0, 0, 0⟩ ⟨0, 0, 0⟩
    ⟨1, 1⟩ ⟨1, 1⟩ 1 1 ⟨0, 0, 0⟩ ⟨0, 0, 0⟩ rfl rfl rfl rfl

/-- C6: a call of `propagate` writes only the output state (whose x, y and
yaw fields it sets); the start state, the control and the duration are left
unchanged, and the output state is overwritten with exactly the successor
state `propagate` computes. -/
theorem propagate_frame (co si : ℝ → ℝ) (e : PropagateFrame) :
    (propagateProc co si e).start = e.start ∧
      (propagateProc co si e).control = e.control ∧
      (propagateProc co si e).duration = e.duration ∧
      (propagateProc co si e).state =
        propagate co si e.start e.control e.duration e.state :=
  ⟨rfl, rfl, rfl, rfl⟩

/-- Bounds object `ob.RealVectorBounds(2)`: per-dimension low and high
values. The script reads only `low[0]` and `high[0]`, but both dimensions
are kept so that dependence on them can be stated. -/
structure RealVectorBounds2 where
  low0 : ℚ
  low1 : ℚ
  high0 : ℚ
  high1 : ℚ

/-- The call `bounds.setLow(v)` sets the low value of every dimension. -/
def RealVectorBounds2.setLow (b : RealVectorBounds2) (v : ℚ) : RealVectorBounds2 :=
  { b with low0 := v, low1 := v }

/-- The call `bounds.setHigh(v)` sets the high value of every dimension. -/
def RealVectorBounds2.setHigh (b : RealVectorBounds2) (v : ℚ) : RealVectorBounds2 :=
  { b with high0 := v, high1 := v }

/-- Exact rational model of `np.linspace(low, high, num)`: `num` evenly
spaced values from `low` to `high` inclusive, the i-th being
`low + (high - low)/(num - 1) · i`. -/
def linspace (low high : ℚ) (num : ℕ) : List ℚ :=
  (List.range num).map (fun (i : ℕ) => low + (high - low) / ((num : ℚ) - 1) * (i : ℚ))

/-- Translation of

```
def _rec_all_states(state_index, grid_marks, bounds):
    dim = 2
    s = np.linspace(bounds.low[0], bounds.high[0], grid_marks)
    if state_index == dim - 1:
        return [[x] for x in s]
    next_res = _rec_all_states(state_index + 1, grid_marks, bounds)
    return [[x] + l[:] for l in next_res for x in s]
```

The Python recursion increases `state_index` and terminates only when it
reaches `dim - 1`; the first argument here is fuel bounding the recursion
depth, with `none` modelling divergence (which the script never reaches:
it only calls the function with `state_index = 0`). The list comprehension
iterates `l` in the outer loop and `x` in the inner loop. -/
def rec_all_states : ℕ → ℕ → ℕ → RealVectorBounds2 → Option (List (List ℚ))
  | 0, _, _, _ => none
  | fuel + 1, state_index, grid_marks, bounds =>
    let s := linspace bounds.low0 bounds.high0 grid_marks
    if state_index = 2 - 1 then
      some (s.map (fun x => [x]))
    else
      match rec_all_states fuel (state_index + 1) grid_marks bounds with
      | none => none
      | some next_res => some (next_res.flatMap (fun l => s.map (fun x => x :: l)))

/-- Translation of

```
def is_free(coordinates, bounds):
    if any(np.abs(coordinates) >= bounds.high[0]):
        return False
    return True
``` -/
def is_free (coordinates : List ℚ) (bounds : RealVectorBounds2) : Bool :=
  if coordinates.any (fun x => decide (bounds.high0 ≤ |x|)) then false else true

/-- The pair comprehension
`[(np.array(s1), np.array(s2)) for s1 in grid_states for s2 in grid_states]`:
all ordered pairs of elements of `grid_states`, with `s1` in the outer
loop. -/
def allPairs (grid_states : List (List ℚ)) : List (List ℚ × List ℚ) :=
  grid_states.flatMap (fun s1 => grid_states.map (fun s2 => (s1, s2)))

/-- The `while` loop of `get_fixed_start_goal_pairs`:

```
while len(all_pairs) < 1000:
    grid_states = _rec_all_states(0, grid_marks, bounds)
    grid_states = [s for s in grid_states if is_free(s, bounds)]
    all_pairs = [(np.array(s1), np.array(s2)) for s1 in grid_states for s2 in grid_states]
    grid_marks += 1
return all_pairs
```

The first argument is fuel bounding the number of iterations, with `none`
modelling divergence of the loop (or of the inner recursion, whose depth
is 2 from `state_index = 0`). -/
def get_pairs_loop (bounds : RealVectorBounds2) :
    ℕ → ℕ → List (List ℚ × List ℚ) → Option (List (List ℚ × List ℚ))
  | 0, _, _ => none
  | fuel + 1, grid_marks, all_pairs =>
    if all_pairs.length < 1000 then
      match rec_all_states 2 0 grid_marks bounds with
      | none => none
      | some grid_states =>
        get_pairs_loop bounds fuel (grid_marks + 1)
          (allPairs (grid_states.filter (fun s => is_free s bounds)))
    else
      some all_pairs

/-- Translation of `get_fixed_start_goal_pairs(bounds)`: starting from
`grid_marks = 11` and an empty pair list, run the enumeration loop. -/
def get_fixed_start_goal_pairs (bounds : RealVectorBounds2) (fuel : ℕ) :
    Option (List (List ℚ × List ℚ)) :=
  get_pairs_loop bounds fuel 11 []

/-- The free grid states the loop body computes at a given resolution:
`[s for s in _rec_all_states(0, grid_marks, bounds) if is_free(s, bounds)]`. -/
def gridStatesAt (bounds : RealVectorBounds2) (grid_marks : ℕ) : List (List ℚ) :=
  ((rec_all_states 2 0 grid_marks bounds).getD []).filter (fun s => is_free s bounds)

/-- All ordered pairs of the free grid states at a given resolution. -/
def allPairsAt (bounds : RealVectorBounds2) (grid_marks : ℕ) : List (List ℚ × List ℚ) :=
  allPairs (gridStatesAt bounds grid_marks)

/-- The state bounds built in `plan`:
`bounds = ob.RealVectorBounds(2); bounds.setLow(-1); bounds.setHigh(1)`
(the fields of a fresh bounds object are modelled as 0; all are
overwritten). -/
def planBounds : RealVectorBounds2 :=
  ((RealVectorBounds2.mk 0 0 0 0).setLow (-1)).setHigh 1

/-- The control bounds built in `plan`:
`cbounds = ob.RealVectorBounds(2); cbounds.setLow(-.3); cbounds.setHigh(.3)`. -/
def planControlBounds : RealVectorBounds2 :=
  ((RealVectorBounds2.mk 0 0 0 0).setLow (-3/10)).setHigh (3/10)

/-- The scalar configuration values `plan` hands to the planning library:
state bounds, control bounds, the goal tolerance of
`ss.setStartAndGoalStates(start, goal, 0.05)`, the time budget of
`ss.solve(20.0)`, and the step size of `si.setPropagationStepSize(.1)`. -/
structure PlanConfig where
  stateBounds : RealVectorBounds2
  controlBounds : RealVectorBounds2
  goalTolerance : ℚ
  timeBudget : ℚ
  propagationStepSize : ℚ

/-- The configuration assembled by `plan` (numeric literals read as exact
rationals). -/
def planConfig : PlanConfig :=
  { stateBounds := planBounds
    controlBounds := planControlBounds
    goalTolerance := 1/20
    timeBudget := 20
    propagationStepSize := 1/10 }

/-- The start state initially built in `plan`:
`start = ob.State(space); start().setX(-0.5); start().setY(0.0); start().setYaw(0.0)`
(fields of a fresh state are modelled as 0; all are overwritten). -/
def initialStart : SE2State :=
  (((SE2State.mk 0 0 0).setX ((-1/2 : ℚ) : ℝ)).setY ((0 : ℚ) : ℝ)).setYaw ((0 : ℚ) : ℝ)

/-- The goal state initially built in `plan`:
`goal = ob.State(space); goal().setX(0.0); goal().setY(0.5); goal().setYaw(0.0)`. -/
def initialGoal : SE2State :=
  (((SE2State.mk 0 0 0).setX ((0 : ℚ) : ℝ)).setY ((1/2 : ℚ) : ℝ)).setYaw ((0 : ℚ) : ℝ)

/-- The state the loop body of `plan` builds from one grid point `p`:
`setX(p[0]); setY(p[1]); setYaw(0.0)`. -/
def stateOfPair (p : List ℚ) : SE2State :=
  (((SE2State.mk 0 0 0).setX ((p.getD 0 0 : ℚ) : ℝ)).setY ((p.getD 1 0 : ℚ) : ℝ)).setYaw
    ((0 : ℚ) : ℝ)

/-- The (start, goal) state pairs for which the loop

```
for i, (s, g) in enumerate(start_goal_pairs):
    if i == 100:
        ...
        ss.setStartAndGoalStates(start, goal, 0.05)
        ...
        solved = ss.solve(20.0)
```

of `plan` configures the problem and calls `solve`, in order. -/
def planSolveCalls (fuel : ℕ) : Option (List (SE2State × SE2State)) :=
  (get_fixed_start_goal_pairs planBounds fuel).map (fun start_goal_pairs =>
    start_goal_pairs.enum.filterMap (fun ig =>
      if ig.1 = 100 then some (stateOfPair ig.2.1, stateOfPair ig.2.2) else none))

/-- The linspace model has exactly `num` entries. -/
theorem linspace_length (low high : ℚ) (num : ℕ) : (linspace low high num).length = num := by
  unfold linspace
  rw [List.length_map, List.length_range]

/-- Length of a rectangular flatMap-of-map: outer length times inner length. -/
theorem flatMap_map_length {α β γ : Type} (s : List α) (t : List β) (g : α → β → γ) :
    (s.flatMap (fun a => t.map (fun x => g a x))).length = s.length * t.length := by
  induction s with
  | nil => simp
  | cons a s ih =>
    simp only [List.flatMap_cons, List.length_append, List.length_map, List.length_cons, ih]
    ring

/-- `allPairs` of a list of `n` states has `n * n` entries. -/
theorem allPairs_length (l : List (List ℚ)) : (allPairs l).length = l.length * l.length :=
  flatMap_map_length l l (fun s1 s2 => (s1, s2))

/-- With fuel at least 2, the grid recursion started at `state_index = 0`
returns the Cartesian square of the dimension-0 linspace axis. -/
theorem rec_all_states_zero_eq (fuel grid_marks : ℕ) (b : RealVectorBounds2) :
    rec_all_states (fuel + 2) 0 grid_marks b =
      some ((linspace b.low0 b.high0 grid_marks).flatMap
        (fun y => (linspace b.low0 b.high0 grid_marks).map (fun x => [x, y]))) := by
  show some (((linspace b.low0 b.high0 grid_marks).map (fun y => [y])).flatMap
      (fun l => (linspace b.low0 b.high0 grid_marks).map (fun x => x :: l))) = _
  rw [List.flatMap_map]

/-- C10: for every `grid_marks`, the recursion called with `state_index = 0`
returns exactly the `grid_marks ·  grid_marks` two-element states of the
Cartesian product of the single `linspace(bounds.low[0], bounds.high[0],
grid_marks)` axis with itself, and its result depends only on the bounds of
dimension 0 (any bounds agreeing there give the same result). -/
theorem rec_all_states_spec (grid_marks : ℕ) (b b' : RealVectorBounds2) (fuel : ℕ)
    (hfuel : 2 ≤ fuel) (hlow : b.low0 = b'.low0) (hhigh : b.high0 = b'.high0) :
    rec_all_states fuel 0 grid_marks b =
        some ((linspace b.low0 b.high0 grid_marks).flatMap
          (fun y => (linspace b.low0 b.high0 grid_marks).map (fun x => [x, y]))) ∧
      ((rec_all_states fuel 0 grid_marks b).getD []).length = grid_marks * grid_marks ∧
      rec_all_states fuel 0 grid_marks b = rec_all_states fuel 0 grid_marks b' := by
  obtain ⟨f, rfl⟩ : ∃ f, fuel = f + 2 := ⟨fuel - 2, by omega⟩
  refine ⟨rec_all_states_zero_eq f grid_marks b, ?_, ?_⟩
  · rw [rec_all_states_zero_eq f grid_marks b]
    rw [Option.getD_some, flatMap_map_length, linspace_length]
  · rw [rec_all_states_zero_eq f grid_marks b, rec_all_states_zero_eq f grid_marks b',
      hlow, hhigh]

/-- Witness for C10 at `grid_marks = 3` and the bounds of the script. -/
theorem rec_all_states_spec_witness :
    rec_all_states 2 0 3 planBounds =
        some ((linspace planBounds.low0 planBounds.high0 3).flatMap
          (fun y => (linspace planBounds.low0 planBounds.high0 3).map (fun x => [x, y]))) ∧
      ((rec_all_states 2 0 3 planBounds).getD []).length = 3 * 3 ∧
      rec_all_states 2 0 3 planBounds = rec_all_states 2 0 3 planBounds :=
  rec_all_states_spec 3 planBounds planBounds 2 (by decide) rfl rfl

/-- C8: a grid point is classified free by `is_free` iff every coordinate
has absolute value strictly below `bounds.high[0]`; the low bounds (and the
dimension-1 high bound) are never consulted, so any bounds agreeing on
`high[0]` classify alike, and a point with a coordinate exactly on the
boundary is excluded. -/
theorem is_free_spec (c : List ℚ) (b b' : RealVectorBounds2) (hhigh : b.high0 = b'.high0) :
    (is_free c b = true ↔ ∀ x ∈ c, |x| < b.high0) ∧ is_free c b = is_free c b' := by
  refine ⟨?_, by simp [is_free, hhigh]⟩
  have h1 : is_free c b = true ↔ ¬c.any (fun x => decide (b.high0 ≤ |x|)) = true := by
    unfold is_free
    cases hb : c.any (fun x => decide (b.high0 ≤ |x|)) <;> simp [hb]
  rw [h1, List.any_eq_true]
  simp only [decide_eq_true_eq]
  push_neg
  rfl

/-- Witness for C8 at a one-coordinate point and the bounds of the script. -/
theorem is_free_spec_witness :
    (is_free [(0 : ℚ)] planBounds = true ↔ ∀ x ∈ [(0 : ℚ)], |x| < planBounds.high0) ∧
      is_free [(0 : ℚ)] planBounds = is_free [(0 : ℚ)] planBounds :=
  is_free_spec [(0 : ℚ)] planBounds planBounds rfl

/-- Once the pair list has reached 1000 entries, the loop returns it
unchanged (given any remaining fuel). -/
theorem get_pairs_loop_exit (bounds : RealVectorBounds2) (Q : List (List ℚ × List ℚ))
    (hQ : ¬Q.length < 1000) (fuel grid_marks : ℕ) :
    get_pairs_loop bounds (fuel + 1) grid_marks Q = some Q := by
  simp [get_pairs_loop, hQ]

/-- Soundness of the enumeration loop: whenever it returns (fuel was
sufficient) after entering with fewer than 1000 pairs, the result is the
pair list of the first resolution at which the pair count reaches 1000. -/
theorem get_pairs_loop_sound (bounds : RealVectorBounds2) (fuel : ℕ) :
    ∀ (grid_marks : ℕ) (all_pairs P : List (List ℚ × List ℚ)),
      all_pairs.length < 1000 →
      get_pairs_loop bounds fuel grid_marks all_pairs = some P →
      ∃ k, grid_marks ≤ k ∧ P = allPairsAt bounds k ∧ 1000 ≤ P.length ∧
        ∀ j, grid_marks ≤ j → j < k → (allPairsAt bounds j).length < 1000 := by
  induction fuel with
  | zero =>
    intro gm ap P h heq
    simp [get_pairs_loop] at heq
  | succ fuel ih =>
    intro gm ap P h heq
    rcases hcase : rec_all_states 2 0 gm bounds with _ | gs
    · simp [get_pairs_loop, h, hcase] at heq
    · simp only [get_pairs_loop, if_pos h, hcase] at heq
      have hgs : allPairs (gs.filter (fun s => is_free s bounds)) = allPairsAt bounds gm := by
        simp [allPairsAt, gridStatesAt, hcase]
      rw [hgs] at heq
      by_cases hlt : (allPairsAt bounds gm).length < 1000
      · obtain ⟨k, hk1, hk2, hk3, hk4⟩ := ih (gm + 1) _ P hlt heq
        refine ⟨k, by omega, hk2, hk3, fun j hj1 hj2 => ?_⟩
        rcases Nat.eq_or_lt_of_le hj1 with hj | hj
        · rwa [← hj]
        · exact hk4 j hj hj2
      · cases fuel with
        | zero => simp [get_pairs_loop] at heq
        | succ fuel' =>
          rw [get_pairs_loop_exit bounds _ hlt] at heq
          obtain rfl : allPairsAt bounds gm = P := Option.some.inj heq
          exact ⟨gm, le_refl gm, rfl, by omega, fun j hj1 hj2 => by omega⟩

/-- C2 (amended): `get_fixed_start_goal_pairs` increases the grid
resolution, starting from 11 marks per axis, until at least 1000 ordered
pairs of free grid points exist (not 1000 free points), and then returns
all ordered pairs among the free grid points of that first sufficient
resolution. -/
theorem get_fixed_start_goal_pairs_first_pair_threshold (bounds : RealVectorBounds2)
    (fuel : ℕ) (P : List (List ℚ × List ℚ))
    (h : get_fixed_start_goal_pairs bounds fuel = some P) :
    ∃ k, 11 ≤ k ∧ P = allPairsAt bounds k ∧ 1000 ≤ P.length ∧
      ∀ j, 11 ≤ j → j < k → (allPairsAt bounds j).length < 1000 :=
  get_pairs_loop_sound bounds fuel 11 [] P (by decide) h

/-- At 11 grid marks the script's bounds leave 81 free grid points (the 9
interior marks of each axis, squared). -/
theorem gridStatesAt_planBounds_11_length : (gridStatesAt planBounds 11).length = 81 := by
  with_unfolding_all decide

/-- The 81 free grid points of the 11-mark grid give 6561 ordered pairs. -/
theorem allPairsAt_planBounds_11_length : (allPairsAt planBounds 11).length = 6561 := by
  unfold allPairsAt
  rw [allPairs_length, gridStatesAt_planBounds_11_length]

/-- On the bounds of the script and any fuel of at least two loop
iterations, the enumeration returns the pairs of the 11-mark grid. -/
theorem get_fixed_start_goal_pairs_planBounds_eval (fuel : ℕ) :
    get_fixed_start_goal_pairs planBounds (fuel + 2) = some (allPairsAt planBounds 11) := by
  have hlen : ¬(allPairsAt planBounds 11).length < 1000 := by
    rw [allPairsAt_planBounds_11_length]; omega
  have h1 : get_fixed_start_goal_pairs planBounds (fuel + 2) =
      get_pairs_loop planBounds (fuel + 1) 12 (allPairsAt planBounds 11) := rfl
  rw [h1, get_pairs_loop_exit planBounds _ hlen]

/-- Witness for C2 at the bounds of the script with fuel 2. -/
theorem get_fixed_start_goal_pairs_first_pair_threshold_witness :
    ∃ k, 11 ≤ k ∧ allPairsAt planBounds 11 = allPairsAt planBounds k ∧
      1000 ≤ (allPairsAt planBounds 11).length ∧
      ∀ j, 11 ≤ j → j < k → (allPairsAt planBounds j).length < 1000 :=
  get_fixed_start_goal_pairs_first_pair_threshold planBounds 2 (allPairsAt planBounds 11)
    (get_fixed_start_goal_pairs_planBounds_eval 0)

/-- C2 counterexample: on the bounds of the script the returned list is not
the ordered pairs of a free-point set with at least 1000 points — the loop
stops at 81 free points, because it counts pairs, not points. -/
theorem get_fixed_start_goal_pairs_not_1000_points :
    ¬∃ pts : List (List ℚ), 1000 ≤ pts.length ∧
        get_fixed_start_goal_pairs planBounds 2 = some (allPairs pts) := by
  rintro ⟨pts, hlen, heq⟩
  rw [get_fixed_start_goal_pairs_planBounds_eval 0] at heq
  have h1 : (allPairsAt planBounds 11).length = (allPairs pts).length :=
    congrArg List.length (Option.some.inj heq)
  rw [allPairs_length] at h1
  have h2 : (allPairsAt planBounds 11).length = 6561 := allPairsAt_planBounds_11_length
  have h3 := Nat.mul_le_mul hlen hlen
  omega

/-- C7: on the bounds `[-1, 1]` of the script, the enumeration starting at
11 grid marks terminates after finitely many resolution increases (any
fuel of at least 2 loop iterations returns a value) and is deterministic:
any two sufficiently fueled runs return the same pair list. -/
theorem get_fixed_start_goal_pairs_deterministic_terminates (f g : ℕ)
    (hf : 2 ≤ f) (hg : 2 ≤ g) :
    get_fixed_start_goal_pairs planBounds f = get_fixed_start_goal_pairs planBounds g ∧
      (get_fixed_start_goal_pairs planBounds f).isSome = true := by
  obtain ⟨f', rfl⟩ : ∃ f', f = f' + 2 := ⟨f - 2, by omega⟩
  obtain ⟨g', rfl⟩ : ∃ g', g = g' + 2 := ⟨g - 2, by omega⟩
  rw [get_fixed_start_goal_pairs_planBounds_eval, get_fixed_start_goal_pairs_planBounds_eval]
  exact ⟨rfl, rfl⟩

/-- Witness for C7 at fuels 2 and 3. -/
theorem get_fixed_start_goal_pairs_deterministic_terminates_witness :
    get_fixed_start_goal_pairs planBounds 2 = get_fixed_start_goal_pairs planBounds 3 ∧
      (get_fixed_start_goal_pairs planBounds 2).isSome = true :=
  get_fixed_start_goal_pairs_deterministic_terminates 2 3 (by decide) (by decide)

/-- Past index 100, the solve-pair filter of the `plan` loop keeps
nothing. -/
theorem planPairs_filterMap_none (prs : List (List ℚ × List ℚ)) :
    ∀ m : ℕ, 100 < m →
      (List.enumFrom m prs).filterMap (fun ig =>
          if ig.1 = 100 then some (stateOfPair ig.2.1, stateOfPair ig.2.2) else none) = [] := by
  induction prs with
  | nil => intro m hm; rfl
  | cons a L ih =>
    intro m hm
    have hne : ¬m = 100 := by omega
    simp only [List.enumFrom_cons, List.filterMap_cons, if_neg hne]
    exact ih (m + 1) (by omega)

/-- The solve-pair filter of the `plan` loop, started at enumeration index
`n ≤ 100`, keeps exactly the entry at position `100 - n` of the remaining
pair list (if any). -/
theorem planPairs_filterMap (prs : List (List ℚ × List ℚ)) :
    ∀ n : ℕ, n ≤ 100 →
      (List.enumFrom n prs).filterMap (fun ig =>
          if ig.1 = 100 then some (stateOfPair ig.2.1, stateOfPair ig.2.2) else none) =
        ((prs.get? (100 - n)).map (fun sg => (stateOfPair sg.1, stateOfPair sg.2))).toList := by
  induction prs with
  | nil => intro n hn; rfl
  | cons a L ih =>
    intro n hn
    by_cases h : n = 100
    · subst h
      simp only [List.enumFrom_cons, List.filterMap_cons, if_pos rfl, Nat.sub_self,
        List.get?_cons_zero, Option.map_some', Option.toList_some]
      rw [planPairs_filterMap_none L 101 (by omega)]
      rfl
    · have hsub : 100 - n = (100 - (n + 1)) + 1 := by omega
      simp only [List.enumFrom_cons, List.filterMap_cons, if_neg h]
      rw [hsub, List.get?_cons_succ]
      exact ih (n + 1) (by omega)

/-- Entry 100 of the enumerated pair list: start grid point `(-0.6, -0.8)`
and goal grid point `(-0.6, -0.4)`. -/
theorem allPairsAt_planBounds_11_get_100 :
    (allPairsAt planBounds 11).get? 100 = some ([-3/5, -4/5], [-3/5, -2/5]) := by
  with_unfolding_all decide

/-- The `plan` loop configures and attempts exactly one solve call, for
grid pair 100. -/
theorem planSolveCalls_eval :
    planSolveCalls 2 = some [(stateOfPair [-3/5, -4/5], stateOfPair [-3/5, -2/5])] := by
  have h0 : get_fixed_start_goal_pairs planBounds 2 = some (allPairsAt planBounds 11) :=
    get_fixed_start_goal_pairs_planBounds_eval 0
  unfold planSolveCalls
  rw [h0]
  show some ((List.enumFrom 0 (allPairsAt planBounds 11)).filterMap _) = _
  rw [planPairs_filterMap (allPairsAt planBounds 11) 0 (by omega), Nat.sub_zero,
    allPairsAt_planBounds_11_get_100]
  rfl

/-- The pair-100 start state differs from the initially constructed start
state `(-0.5, 0, 0)`. -/
theorem pair100_start_ne_initialStart : stateOfPair [-3/5, -4/5] ≠ initialStart := by
  have e1 : stateOfPair [-3/5, -4/5] =
      SE2State.mk ((-3/5 : ℚ) : ℝ) ((-4/5 : ℚ) : ℝ) ((0 : ℚ) : ℝ) := rfl
  have e2 : initialStart = SE2State.mk ((-1/2 : ℚ) : ℝ) ((0 : ℚ) : ℝ) ((0 : ℚ) : ℝ) := rfl
  rw [e1, e2]
  intro h
  have hx : ((-3/5 : ℚ) : ℝ) = ((-1/2 : ℚ) : ℝ) := congrArg SE2State.x h
  rw [Rat.cast_inj] at hx
  norm_num at hx

/-- The pair-100 goal state differs from the initially constructed goal
state `(0, 0.5, 0)`. -/
theorem pair100_goal_ne_initialGoal : stateOfPair [-3/5, -2/5] ≠ initialGoal := by
  have e1 : stateOfPair [-3/5, -2/5] =
      SE2State.mk ((-3/5 : ℚ) : ℝ) ((-2/5 : ℚ) : ℝ) ((0 : ℚ) : ℝ) := rfl
  have e2 : initialGoal = SE2State.mk ((0 : ℚ) : ℝ) ((1/2 : ℚ) : ℝ) ((0 : ℚ) : ℝ) := rfl
  rw [e1, e2]
  intro h
  have hx : ((-3/5 : ℚ) : ℝ) = ((0 : ℚ) : ℝ) := congrArg SE2State.x h
  rw [Rat.cast_inj] at hx
  norm_num at hx

/-- C9: of all the enumerated (start, goal) grid pairs, the driver
configures and attempts to solve only the single pair at index 100 of the
enumeration — the grid pair `((-0.6, -0.8), (-0.6, -0.4))` — with yaw 0 on
both states; every other pair is skipped, and the attempted states are not
the initially constructed start `(-0.5, 0, 0)` and goal `(0, 0.5, 0)`. -/
theorem plan_attempts_only_pair_100 :
    planSolveCalls 2 = some [(stateOfPair [-3/5, -4/5], stateOfPair [-3/5, -2/5])] ∧
      (allPairsAt planBounds 11).get? 100 = some ([-3/5, -4/5], [-3/5, -2/5]) ∧
      stateOfPair [-3/5, -4/5] ≠ initialStart ∧
      stateOfPair [-3/5, -2/5] ≠ initialGoal :=
  ⟨planSolveCalls_eval, allPairsAt_planBounds_11_get_100,
    pair100_start_ne_initialStart, pair100_goal_ne_initialGoal⟩

/-- C4 counterexample: the single solve call the driver makes is not the
reference scenario from start `(-0.5, 0, 0)` to goal `(0, 0.5, 0)`. -/
theorem plan_not_reference_scenario :
    planSolveCalls 2 ≠ some [(initialStart, initialGoal)] := by
  rw [planSolveCalls_eval]
  intro h
  simp only [Option.some.injEq, List.cons.injEq, Prod.mk.injEq, and_true] at h
  exact pair100_start_ne_initialStart h.1

/-- C4 (amended): the driver configures state bounds `[-1, 1]` per axis,
control bounds `[-0.3, 0.3]` for both speed and turn rate, goal tolerance
0.05, time budget 20 s (and propagation step 0.1), but the one solve call
it makes is for grid pair 100 — start `(-0.6, -0.8, 0)` and goal
`(-0.6, -0.4, 0)` — not the initially constructed `(-0.5, 0, 0)` and
`(0, 0.5, 0)`; whether the external `solve` then returns Solved within the
budget is a property of the external planning library, outside this
model. -/
theorem plan_configuration_and_solve_call :
    planConfig.stateBounds = RealVectorBounds2.mk (-1) (-1) 1 1 ∧
      planConfig.controlBounds = RealVectorBounds2.mk (-3/10) (-3/10) (3/10) (3/10) ∧
      planConfig.goalTolerance = 1/20 ∧
      planConfig.timeBudget = 20 ∧
      planConfig.propagationStepSize = 1/10 ∧
      planSolveCalls 2 = some [(stateOfPair [-3/5, -4/5], stateOfPair [-3/5, -2/5])] :=
  ⟨rfl, rfl, rfl, rfl, rfl, planSolveCalls_eval⟩
